import Mathlib

/-!
Verification development for the certificate-generator repository
(`src/certificate.py`).  The module builds three PDF certificate variants
(`CertificateGenerator`, `CertificateGenerator2`, `CertificateGenerator3`)
by assembling lists of reportlab flowables (paragraphs with HTML-like
markup, images, spacers) and drawing a seal overlay on the first page.

Shallow embedding conventions:
* Python floats and ints entering the geometry computation are modelled
  by `ℚ`; Python's `ZeroDivisionError` is modelled by `Option.none`.
* A reportlab `Paragraph(text, custom_style)` is `Flowable.paragraph text`
  (the style is the module-level constant `custom_style` in every call, so
  it carries no information).
* A reportlab `Image` built from an in-memory barcode/QR raster is
  modelled by the payload string that was encoded, since the encoders are
  pure functions of the payload (the QR parameters version=1,
  error-correction L, box_size=10, border=4 are constants).
* An `Image` built from a file path is modelled by that path; the native
  pixel dimensions that the image-decoding layer returns for the file
  (`img.imageWidth`, `img.imageHeight` in the source) are supplied as an
  explicit `RasterDim` field of the field bundle.
* Numbers interpolated into markup f-strings are rendered with `toString`
  of the exact rational (Python prints floats with a decimal point; no
  claim depends on the digit string, only on determinism).
-/

/-- Native pixel dimensions of a decoded raster image, as returned by the
image-decoding layer (`img.imageWidth` / `img.imageHeight`). -/
structure RasterDim where
  width : ℚ
  height : ℚ
deriving DecidableEq, Repr

/-- Source function `calculate_height(original_width, original_height,
target_width)`: `aspect_ratio = original_width / original_height` followed by
`return target_width / aspect_ratio`.  Each Python `/` raises
`ZeroDivisionError` when its divisor is zero, modelled as `none`: the
first division fails when `original_height = 0`, the second when
`aspect_ratio = 0` (i.e. `original_width = 0`). -/
def calculate_height (original_width original_height target_width : ℚ) : Option ℚ :=
  if original_height = 0 then none
  else
    let aspect_ratio := original_width / original_height
    if aspect_ratio = 0 then none
    else some (target_width / aspect_ratio)

/-- Source of a reportlab `Image` flowable: a file path, or an in-memory
raster produced by one of the two pure encoders from a string payload. -/
inductive ImageSource
  | file (path : String)
  | code128 (payload : String)
  | qr (payload : String)
deriving DecidableEq, Repr

/-- One flow element handed to `doc.build`: `Paragraph`, `Image` (with the
requested display width/height), or `Spacer(width, height)`. -/
inductive Flowable
  | paragraph (markup : String)
  | image (src : ImageSource) (width height : ℚ)
  | spacer (width height : ℚ)
deriving DecidableEq, Repr

/-- The kind of a flow element, forgetting its content. -/
inductive FlowKind
  | text
  | image
  | spacer
deriving DecidableEq, Repr

def Flowable.kind : Flowable → FlowKind
  | .paragraph _ => .text
  | .image _ _ _ => .image
  | .spacer _ _ => .spacer

/-- Source function `add_spacer(height=12)`: returns `Spacer(1, height)`. -/
def add_spacer (height : ℚ) : Flowable := .spacer 1 height

/-- Source function `add_paragraph(text)`: returns `Paragraph(text, custom_style)`. -/
def add_paragraph (text : String) : Flowable := .paragraph text

/-- The seal (or any fixed-position graphic) drawn by the `onFirstPage`
callback: image path, drawn width/height, and the absolute page
coordinates passed to `drawOn`/`drawImage`. -/
structure SealOverlay where
  path : String
  width : ℚ
  height : ℚ
  x : ℚ
  y : ℚ
deriving DecidableEq, Repr

/-- A generated document: the linear flow handed to `doc.build` plus the
first-page seal overlay registered through `onFirstPage`. -/
structure Document where
  flow : List Flowable
  first_page_seal : SealOverlay
deriving DecidableEq, Repr

/-- Width of the `letter` page in points (reportlab `lib.pagesizes.letter`). -/
def letter_page_width : ℚ := 612

/-- Value of `doc.width` for a `SimpleDocTemplate(..., pagesize=letter)`:
page width
minus the default one-inch (72 pt) left and right margins. -/
def simple_doc_width : ℚ := letter_page_width - 72 - 72

/-- Markup built by `_add_image_paragraph` (identical in variants A and B):
`f"<font size=10 color=black>{text} <img src='{image_path}'
width='{target_width}' height='{adjusted_height}'/></font>"`. -/
def image_paragraph_text (text image_path : String) (target_width adjusted_height : ℚ) : String :=
  "<font size=10 color=black>" ++ text ++ " <img src=\x27" ++ image_path ++
    "\x27 width=\x27" ++ toString target_width ++ "\x27 height=\x27" ++
    toString adjusted_height ++ "\x27/></font>"

/-- Source method `_add_image_paragraph(text, image_path, target_width=80)`
(identical in variants A and B): computes
`adjusted_height` with `calculate_height` from the decoded raster's native
dimensions and wraps the markup in a paragraph; propagates the
`ZeroDivisionError` of `calculate_height` as `none`. -/
def add_image_paragraph (text image_path : String) (dims : RasterDim)
    (target_width : ℚ) : Option Flowable :=
  (calculate_height dims.width dims.height target_width).map fun adjusted_height =>
    add_paragraph (image_paragraph_text text image_path target_width adjusted_height)

/-- Field bundle of Variant A (`CertificateGenerator.__init__`), plus the
native raster dimensions the image layer reports for the two signature
image files. -/
structure CertificateGenerator where
  student_name : String
  group_name : String
  direction_number : ℤ
  direction_name : String
  study_type : String
  level : String
  faculty_name : String
  issue_date : String
  course_num : ℤ
  certificate_num : String
  dean_signature_path : String
  secretary_signature_path : String
  seal_image_path : String
  ministry : String
  university_name : String
  dean_signature_dims : RasterDim
  secretary_signature_dims : RasterDim
deriving DecidableEq, Repr

namespace CertificateGenerator

/-- Source method `_draw_seal`: `Image(seal_image_path, width=100, height=100)` drawn at
`(doc.width - 75, 260)`. -/
def draw_seal (g : CertificateGenerator) : SealOverlay :=
  { path := g.seal_image_path, width := 100, height := 100
    x := simple_doc_width - 75, y := 260 }

/-- Source method `_generate_barcode_image`: encodes `certificate_num` with the code128
encoder and wraps the raster as `Image(..., width=150, height=30)`. -/
def generate_barcode_image (g : CertificateGenerator) : Flowable :=
  .image (.code128 g.certificate_num) 150 30

/-- Local string `title_text` of `_add_title`. -/
def title_text (g : CertificateGenerator) : String :=
  "<font size=12 color=black>" ++ g.ministry ++ "<br/>" ++
    g.university_name ++ "<br/>" ++ g.direction_name ++ "</font>"

def add_title (g : CertificateGenerator) : Flowable :=
  add_paragraph g.title_text

/-- Local string `ref_number_text` of `_add_ref_number`. -/
def ref_number_text (g : CertificateGenerator) : String :=
  "<font size=12 color=black>СПРАВКА № " ++ g.certificate_num ++
    "<br/><br/>Настоящая справка подтверждает то, что</font>"

def add_ref_number (g : CertificateGenerator) : Flowable :=
  add_paragraph g.ref_number_text

/-- Local string `student_info_text` of `_add_student_info`. -/
def student_info_text (g : CertificateGenerator) : String :=
  "<font size=12 color=black>" ++ g.student_name ++
    "<br/>действительно является студентом (кой) " ++ toString g.course_num ++
    "-курса группы " ++ g.group_name ++ "<br/>направлении: " ++
    toString g.direction_number ++ ". " ++ g.direction_name ++ " (" ++
    g.study_type ++ ", " ++ g.level ++ ")<br/>" ++ g.faculty_name ++ "</font>"

def add_student_info (g : CertificateGenerator) : Flowable :=
  add_paragraph g.student_info_text

/-- Local string `issue_date_text` of `_add_issue_date`. -/
def issue_date_text (g : CertificateGenerator) : String :=
  "<font size=10 color=black>Справка выдана по месту требования.<br/><br/>" ++
    g.issue_date ++ "</font>"

def add_issue_date (g : CertificateGenerator) : Flowable :=
  add_paragraph g.issue_date_text

/-- Source method `_add_signatures`: two image paragraphs (dean first, secretary second),
each preceded by two spacers. -/
def add_signatures (g : CertificateGenerator) : Option (List Flowable) :=
  match add_image_paragraph "Декан (Директор):" g.dean_signature_path
      g.dean_signature_dims 80,
    add_image_paragraph "Секретарь (методист) факультета:" g.secretary_signature_path
      g.secretary_signature_dims 80 with
  | some dean_signature, some secretary_signature =>
    some [add_spacer 12, add_spacer 12, dean_signature, add_spacer 12,
      add_spacer 12, secretary_signature]
  | _, _ => none

/-- Source method `generate_certificate`: assembles the flow `content` in source order
and registers `_draw_seal` as the `onFirstPage` overlay.  `none` models a
run aborted by an exception inside `_add_signatures`. -/
def generate_certificate (g : CertificateGenerator) : Option Document :=
  (g.add_signatures).map fun sigs =>
    { flow := [g.add_title, add_spacer 12, g.add_ref_number, add_spacer 12,
        g.add_student_info, add_spacer 12, g.add_issue_date, add_spacer 12,
        g.generate_barcode_image, add_spacer 12] ++ sigs
      first_page_seal := g.draw_seal }

end CertificateGenerator

/-- One entry of the `semesters` list of Variant B: a dictionary with keys
`"name"`, `"start"`, `"end"`. -/
structure SemesterEntry where
  name : String
  start : String
  «end» : String
deriving DecidableEq, Repr

/-- Field bundle of Variant B (`CertificateGenerator2.__init__`), plus the
native raster dimensions of the project-authority signature image. -/
structure CertificateGenerator2 where
  student_name : String
  date_of_birth : String
  course_num : ℤ
  group_name : String
  faculty_name : String
  study_form : String
  period_start : ℤ
  period_end : ℤ
  normative_duration : ℤ
  to_the_authority : String
  certificate_num : String
  executor_name : String
  execution_date : String
  qr_code_data : String
  project_authority_name : String
  project_authority_role : String
  project_authority_sign_path : String
  ministry : String
  university_name : String
  seal_image_path : String
  semesters : List SemesterEntry
  project_authority_sign_dims : RasterDim
deriving DecidableEq, Repr

namespace CertificateGenerator2

/-- Source method `_draw_seal`: `Image(seal_image_path, width=100, height=100)` drawn at
`(doc.width - 75, 125)`. -/
def draw_seal (g : CertificateGenerator2) : SealOverlay :=
  { path := g.seal_image_path, width := 100, height := 100
    x := simple_doc_width - 75, y := 125 }

/-- Source method `_generate_qr_code_image`: encodes `qr_code_data` with the QR encoder
(version=1, error-correction L, box_size=10, border=4, fit=True) and wraps
the raster as `Image(..., width=100, height=100)`. -/
def generate_qr_code_image (g : CertificateGenerator2) : Flowable :=
  .image (.qr g.qr_code_data) 100 100

/-- Local string `title_text` of `_add_title`. -/
def title_text (g : CertificateGenerator2) : String :=
  "<font size=12 color=black>" ++ g.ministry ++ "<br/>" ++
    g.university_name ++ "<br/>" ++ g.faculty_name ++ "</font>"

def add_title (g : CertificateGenerator2) : Flowable :=
  add_paragraph g.title_text

/-- Local string `reference_text` of `_add_reference`. -/
def reference_text (g : CertificateGenerator2) : String :=
  "<font size=12 color=black>СПРАВКА<br/><br/>Дана студенту " ++
    g.student_name ++ ". " ++ g.date_of_birth ++
    " года рождения, в том, что он(а) действительно является студентом " ++
    toString g.course_num ++ "-курса, группы " ++ g.group_name ++ ", " ++
    g.faculty_name ++ " (" ++ g.study_form ++ ")</font>"

def add_reference (g : CertificateGenerator2) : Flowable :=
  add_paragraph g.reference_text

/-- The `declination` conditional expression inside `_add_study_period`:
`"года" if d > 1 and d < 5 else "год" if d == 1 else "лет"`. -/
def declination (normative_duration : ℤ) : String :=
  if 1 < normative_duration ∧ normative_duration < 5 then "года"
  else if normative_duration = 1 then "год"
  else "лет"

/-- Local string `study_period_text` of `_add_study_period`. -/
def study_period_text (g : CertificateGenerator2) : String :=
  "<font size=12 color=black>Форма обучения: " ++ g.study_form ++
    "<br/>Период обучения: с " ++ toString g.period_start ++ " по " ++
    toString g.period_end ++ "<br/>Нормативный срок освоения: " ++
    toString g.normative_duration ++ " " ++ declination g.normative_duration ++
    " </font>"

def add_study_period (g : CertificateGenerator2) : Flowable :=
  add_paragraph g.study_period_text

/-- Local string `to_the_authority_text` of `_add_to_the_authority`. -/
def to_the_authority_text (g : CertificateGenerator2) : String :=
  "<font size=12 color=black>Справка выдана в " ++ g.to_the_authority ++ "</font>"

def add_to_the_authority (g : CertificateGenerator2) : Flowable :=
  add_paragraph g.to_the_authority_text

/-- The fixed header the periods loop starts from. -/
def periods_header : String :=
  "<font size=12 color=black>Сроки обучения в текущем учебном году:</font>"

/-- The line appended for one semester:
`f"<br/>- {period['name']} с {period['start']} по {period['end']}"`. -/
def period_line (period : SemesterEntry) : String :=
  "<br/>- " ++ period.name ++ " с " ++ period.start ++ " по " ++ period.«end»

/-- Local string `periods_text` of `_add_current_year_periods`: the header followed by
the `for period in self.semesters` loop appending one line per entry. -/
def periods_text (semesters : List SemesterEntry) : String :=
  semesters.foldl (fun acc period => acc ++ period_line period) periods_header

def add_current_year_periods (g : CertificateGenerator2) : Flowable :=
  add_paragraph (periods_text g.semesters)

/-- Local string `unique_number_text` of `_add_unique_number`. -/
def unique_number_text (g : CertificateGenerator2) : String :=
  "<font size=12 color=black>Уникальный номер документа: " ++
    g.certificate_num ++ "</font>"

def add_unique_number (g : CertificateGenerator2) : Flowable :=
  add_paragraph g.unique_number_text

/-- Local string `executor_and_date` of `_add_executor_and_date`. -/
def executor_and_date_text (g : CertificateGenerator2) : String :=
  "<font size=12>Исполнитель: " ++ g.executor_name ++ ", " ++
    g.execution_date ++ "</font>"

def add_executor_and_date (g : CertificateGenerator2) : Flowable :=
  add_paragraph g.executor_and_date_text

/-- Source method `_add_signatures`: one spacer then the project-authority image
paragraph. -/
def add_signatures (g : CertificateGenerator2) : Option (List Flowable) :=
  (add_image_paragraph
      (g.project_authority_role ++ ", " ++ g.project_authority_name ++ ":")
      g.project_authority_sign_path g.project_authority_sign_dims 80).map
    fun project_authority_signature => [add_spacer 12, project_authority_signature]

/-- Source method `generate_certificate` of Variant B: the flow `content` in source
order plus the `onFirstPage` seal overlay. -/
def generate_certificate (g : CertificateGenerator2) : Option Document :=
  (g.add_signatures).map fun sigs =>
    { flow := [g.add_title, add_spacer 12, g.add_reference, add_spacer 12,
        g.add_study_period, add_spacer 12, g.add_to_the_authority, add_spacer 12,
        g.add_current_year_periods, add_spacer 12, g.add_unique_number,
        add_spacer 12, g.add_executor_and_date, add_spacer 12,
        g.generate_qr_code_image, add_spacer 12, add_spacer 12] ++ sigs
      first_page_seal := g.draw_seal }

end CertificateGenerator2

namespace CertificateGenerator3

/-- The derivation of `type_of_study_kg` in `CertificateGenerator3.__init__`:
`"күндүзгү"` when `type_of_study_ru == "очного"`, otherwise the fallback
`"кечки (сырттан окуу)"`; no branch raises. -/
def type_of_study_kg (type_of_study_ru : String) : String :=
  if type_of_study_ru = "очного" then "күндүзгү"
  else "кечки (сырттан окуу)"

end CertificateGenerator3

/-- The `CertificateGenerator` example usage from the module's `__main__`
block, with native signature-raster dimensions of 160×80 px supplied for
the image-decoding layer (the example's `direction_number` string
`"0000000"` is the integer 0 under the constructor's `int` annotation). -/
def example_generator : CertificateGenerator :=
  { student_name := "ФИО студента"
    group_name := "Группа"
    direction_number := 0
    direction_name := "Название бакалавриата"
    study_type := "очная"
    level := "бакалавр"
    faculty_name := "Название факультета"
    issue_date := "17.01.2023"
    course_num := 3
    certificate_num := "1-1111-11111111-1"
    dean_signature_path := "test_images/signature.png"
    secretary_signature_path := "test_images/signature2.png"
    seal_image_path := "test_images/seal.jpg"
    ministry := "МИНИСТЕРСТВО ОБРАЗОВАНИЯ И НАУКИ СТРАНЫ"
    university_name := "Университет Silk Road Innovations"
    dean_signature_dims := ⟨160, 80⟩
    secretary_signature_dims := ⟨160, 80⟩ }

/-- The `CertificateGenerator2` example usage from the module's `__main__`
block, with native signature-raster dimensions of 160×80 px supplied for
the image-decoding layer. -/
def example_generator2 : CertificateGenerator2 :=
  { student_name := "Имя Фамилия Отчество"
    date_of_birth := "15.02.2004"
    course_num := 3
    group_name := "Группа"
    faculty_name := "Название факультета"
    study_form := "очная"
    period_start := 2021
    period_end := 2025
    normative_duration := 4
    to_the_authority := "посольство Германии"
    certificate_num := "10-23-17-204"
    executor_name := "ФИО исполнителя"
    execution_date := "14.11.2023"
    qr_code_data := "something"
    project_authority_name := "ФИО"
    project_authority_role := "Проектор по УР"
    project_authority_sign_path := "test_images/signature2.png"
    ministry := "МИНИСТЕРСТВО ОБРАЗОВАНИЯ И НАУКИ СТРАНЫ"
    university_name := "Университет Silk Road Innovations"
    seal_image_path := "test_images/seal.jpg"
    semesters := [⟨"осенний семестр", "01.09.2022", "31.12.2022"⟩,
      ⟨"весенний семестр", "01.02.2023", "31.05.2023"⟩,
      ⟨"каникулярный семестр", "01.06.2023", "31.08.2023"⟩]
    project_authority_sign_dims := ⟨160, 80⟩ }

/-- Folding string concatenation from any initial accumulator splits off
the accumulator; used to turn the periods loop into a join of lines. -/
theorem foldl_string_append (l : List String) (init : String) :
    l.foldl (· ++ ·) init = init ++ String.join l := by
  induction l generalizing init with
  | nil => simp [String.join, String.append_empty]
  | cons x t ih =>
    simp only [String.join, List.foldl_cons] at ih ⊢
    rw [ih (init ++ x), ih ("" ++ x), String.empty_append, String.append_assoc]

/-- Claim C2: for strictly positive native width, native height and target
width, `calculate_height` succeeds and returns
`target_width * native_height / native_width`, which satisfies
`target_width / height = native_width / native_height` exactly over `ℚ`. -/
theorem calculate_height_preserves_aspect_ratio
    (native_width native_height target_width : ℚ)
    (hw : 0 < native_width) (hh : 0 < native_height) (ht : 0 < target_width) :
    ∃ h, calculate_height native_width native_height target_width = some h ∧
      h = target_width * native_height / native_width ∧
      target_width / h = native_width / native_height := by
  have hw0 : native_width ≠ 0 := hw.ne'
  have hh0 : native_height ≠ 0 := hh.ne'
  have har : native_width / native_height ≠ 0 := div_ne_zero hw0 hh0
  refine ⟨target_width * native_height / native_width, ?_, rfl, ?_⟩
  · rw [calculate_height, if_neg hh0]
    simp only [if_neg har, Option.some.injEq]
    field_simp
  · have hne : target_width * native_height / native_width ≠ 0 :=
      div_ne_zero (mul_ne_zero ht.ne' hh0) hw0
    field_simp
    ring

theorem calculate_height_preserves_aspect_ratio_witness :
    ∃ h, calculate_height 160 80 100 = some h ∧
      h = 100 * 80 / 160 ∧ (100 : ℚ) / h = 160 / 80 :=
  calculate_height_preserves_aspect_ratio 160 80 100
    (by norm_num) (by norm_num) (by norm_num)

/-- Claim C6: with a positive native height and target width,
`native_width = 0` makes the second division of `calculate_height`
(`target_width / aspect_ratio`) a division by zero, modelled as `none`
(Python raises `ZeroDivisionError`); no degenerate height is returned. -/
theorem calculate_height_zero_width_error
    (native_height target_width : ℚ)
    (hh : 0 < native_height) (ht : 0 < target_width) :
    calculate_height 0 native_height target_width = none := by
  simp [calculate_height, hh.ne']

theorem calculate_height_zero_width_error_witness :
    calculate_height 0 80 100 = none :=
  calculate_height_zero_width_error 80 100 (by norm_num) (by norm_num)

/-- Claim C7, counterexample: at the negative native width −2 (native
height 4, target width 100) `calculate_height` does not signal any error:
it returns the negative height −200. -/
theorem calculate_height_negative_width_returns_value :
    calculate_height (-2) 4 100 = some (-200) ∧ ((-200 : ℚ) < 0) := by
  constructor
  · norm_num [calculate_height]
  · norm_num

/-- Claim C7 as amended: when exactly one native dimension is negative
(the other positive) and the target width is positive, the computation
does not signal an error; it silently returns a negative height value.
Only a zero dimension triggers the division-by-zero error. -/
theorem calculate_height_negative_dimension_silent
    (native_width native_height target_width : ℚ)
    (hmix : (native_width < 0 ∧ 0 < native_height) ∨
      (0 < native_width ∧ native_height < 0))
    (ht : 0 < target_width) :
    ∃ h, calculate_height native_width native_height target_width = some h ∧
      h < 0 := by
  have har : native_width / native_height < 0 := by
    rcases hmix with ⟨hw, hh⟩ | ⟨hw, hh⟩
    · exact div_neg_of_neg_of_pos hw hh
    · exact div_neg_of_pos_of_neg hw hh
  have hh0 : native_height ≠ 0 := by
    rcases hmix with ⟨_, hh⟩ | ⟨_, hh⟩
    · exact hh.ne'
    · exact hh.ne
  refine ⟨target_width / (native_width / native_height), ?_,
    div_neg_of_pos_of_neg ht har⟩
  rw [calculate_height, if_neg hh0]
  simp only [if_neg har.ne]

theorem calculate_height_negative_dimension_silent_witness :
    ∃ h, calculate_height (-2) 4 100 = some h ∧ h < 0 :=
  calculate_height_negative_dimension_silent (-2) 4 100
    (Or.inl ⟨by norm_num, by norm_num⟩) (by norm_num)

/-- Claim C10: `calculate_height` divides by `original_height` first, so
`native_height = 0` already raises the division-by-zero error whatever
`native_width` is; in general the computation fails exactly when one of
the two native dimensions is zero. -/
theorem calculate_height_requires_both_dimensions
    (native_width target_width : ℚ) :
    calculate_height native_width 0 target_width = none ∧
    (∀ native_height, calculate_height native_width native_height target_width = none ↔
      native_width = 0 ∨ native_height = 0) := by
  refine ⟨by simp [calculate_height], fun native_height => ?_⟩
  rcases eq_or_ne native_height 0 with h | h
  · simp [calculate_height, h]
  · rcases eq_or_ne native_width 0 with hw | hw
    · simp [calculate_height, h, hw]
    · simp [calculate_height, h, hw, div_eq_zero_iff]

theorem calculate_height_requires_both_dimensions_witness :
    calculate_height 160 0 80 = none ∧
    (calculate_height 160 80 80 = none ↔ (160 : ℚ) = 0 ∨ (80 : ℚ) = 0) :=
  ⟨(calculate_height_requires_both_dimensions 160 80).1,
   (calculate_height_requires_both_dimensions 160 80).2 80⟩

/-- Claim C3: the pluralized suffix chosen in `_add_study_period` is
`"год"` exactly when the duration is 1, `"года"` exactly when it lies
strictly between 1 and 5, and `"лет"` exactly otherwise (duration ≥ 5 or
≤ 0); in particular 1 maps to `"год"` and 5 to `"лет"`, never `"года"`. -/
theorem declination_pluralization (d : ℤ) :
    (CertificateGenerator2.declination d = "год" ↔ d = 1) ∧
    (CertificateGenerator2.declination d = "года" ↔ 1 < d ∧ d < 5) ∧
    (CertificateGenerator2.declination d = "лет" ↔ 5 ≤ d ∨ d ≤ 0) := by
  unfold CertificateGenerator2.declination
  split_ifs with h1 h2
  · exact ⟨⟨fun hc => absurd hc (by decide), fun hd => False.elim (by omega)⟩,
      ⟨fun _ => h1, fun _ => rfl⟩,
      ⟨fun hc => absurd hc (by decide), fun hd => False.elim (by omega)⟩⟩
  · exact ⟨⟨fun _ => h2, fun _ => rfl⟩,
      ⟨fun hc => absurd hc (by decide), fun hd => False.elim (by omega)⟩,
      ⟨fun hc => absurd hc (by decide), fun hd => False.elim (by omega)⟩⟩
  · exact ⟨⟨fun hc => absurd hc (by decide), fun hd => absurd hd h2⟩,
      ⟨fun hc => absurd hc (by decide), fun hd => absurd hd h1⟩,
      ⟨fun _ => by omega, fun _ => rfl⟩⟩

theorem declination_pluralization_witness :
    CertificateGenerator2.declination 1 = "год" ∧
    CertificateGenerator2.declination 3 = "года" ∧
    CertificateGenerator2.declination 5 = "лет" ∧
    CertificateGenerator2.declination 0 = "лет" :=
  ⟨(declination_pluralization 1).1.mpr rfl,
   (declination_pluralization 3).2.1.mpr (by norm_num),
   (declination_pluralization 5).2.2.mpr (Or.inl (by norm_num)),
   (declination_pluralization 0).2.2.mpr (Or.inr (by norm_num))⟩

/-- Claim C8: the Variant C constructor derives `type_of_study_kg`
deterministically and totally from `type_of_study_ru`: `"күндүзгү"`
exactly when the input is `"очного"`, and the silent fallback
`"кечки (сырттан окуу)"` for every other input, with no error path. -/
theorem type_of_study_kg_derivation (type_of_study_ru : String) :
    (CertificateGenerator3.type_of_study_kg type_of_study_ru = "күндүзгү" ↔
      type_of_study_ru = "очного") ∧
    (type_of_study_ru ≠ "очного" →
      CertificateGenerator3.type_of_study_kg type_of_study_ru =
        "кечки (сырттан окуу)") := by
  unfold CertificateGenerator3.type_of_study_kg
  split_ifs with h
  · exact ⟨⟨fun _ => h, fun _ => rfl⟩, fun hn => absurd h hn⟩
  · exact ⟨⟨fun hc => absurd hc (by decide), fun ht => absurd ht h⟩, fun _ => rfl⟩

theorem type_of_study_kg_derivation_witness :
    CertificateGenerator3.type_of_study_kg "очного" = "күндүзгү" ∧
    CertificateGenerator3.type_of_study_kg "заочного" = "кечки (сырттан окуу)" :=
  ⟨(type_of_study_kg_derivation "очного").1.mpr rfl,
   (type_of_study_kg_derivation "заочного").2 (by decide)⟩

/-- Claim C5: the current-year-periods block of Variant B is the fixed
header followed by exactly one bulleted line per semester entry, in the
input list's order, each line reproducing that entry's `name`, `start`
and `end` verbatim; the number of lines equals the number of entries. -/
theorem periods_text_one_line_per_entry (semesters : List SemesterEntry) :
    CertificateGenerator2.periods_text semesters =
      CertificateGenerator2.periods_header ++
        String.join (semesters.map CertificateGenerator2.period_line) ∧
    (semesters.map CertificateGenerator2.period_line).length = semesters.length := by
  refine ⟨?_, by simp⟩
  rw [CertificateGenerator2.periods_text, ← List.foldl_map, foldl_string_append]

theorem periods_text_one_line_per_entry_witness :
    CertificateGenerator2.periods_text example_generator2.semesters =
      CertificateGenerator2.periods_header ++
        String.join (example_generator2.semesters.map CertificateGenerator2.period_line) ∧
    (example_generator2.semesters.map CertificateGenerator2.period_line).length =
      example_generator2.semesters.length :=
  periods_text_one_line_per_entry example_generator2.semesters

/-- Claim C1, counterexample: on the `__main__` example bundle of
Variant B, the payload encoded into the QR raster is the caller-supplied
`qr_code_data` string `"something"`, which differs from the certificate
number `"10-23-17-204"` reproduced in the visible unique-number block, so
the QR payload is not textually identical to the unique identifier. -/
theorem qr_payload_differs_from_certificate_num :
    CertificateGenerator2.generate_qr_code_image example_generator2 =
      .image (.qr "something") 100 100 ∧
    example_generator2.certificate_num = "10-23-17-204" ∧
    (∃ pre suf, CertificateGenerator2.unique_number_text example_generator2 =
      pre ++ "10-23-17-204" ++ suf) ∧
    ("something" : String) ≠ "10-23-17-204" :=
  ⟨rfl, rfl,
   ⟨"<font size=12 color=black>Уникальный номер документа: ", "</font>", rfl⟩,
   by decide⟩

/-- Claim C1 as amended: in Variant A the barcode raster encodes exactly
`certificate_num`, which is also reproduced verbatim in the visible
reference-number block; in Variant B the QR raster encodes the
independent caller-supplied `qr_code_data` field — not `certificate_num`,
which is nevertheless reproduced verbatim in the visible unique-number
block. -/
theorem scannable_code_payloads (gA : CertificateGenerator)
    (gB : CertificateGenerator2) :
    gA.generate_barcode_image = .image (.code128 gA.certificate_num) 150 30 ∧
    (∃ pre suf, gA.ref_number_text = pre ++ gA.certificate_num ++ suf) ∧
    gB.generate_qr_code_image = .image (.qr gB.qr_code_data) 100 100 ∧
    (∃ pre suf, gB.unique_number_text = pre ++ gB.certificate_num ++ suf) :=
  ⟨rfl,
   ⟨"<font size=12 color=black>СПРАВКА № ",
    "<br/><br/>Настоящая справка подтверждает то, что</font>", rfl⟩,
   rfl,
   ⟨"<font size=12 color=black>Уникальный номер документа: ", "</font>", rfl⟩⟩

/-- Claim C4: for every Variant A field bundle whose two signature rasters
have usable native dimensions, `generate_certificate` assembles exactly
this flow, top to bottom: title, reference-number block (reproducing
`certificate_num` verbatim), student-info block (containing
`course_num`-курса verbatim), issue-date block, the code128 barcode image
encoding `certificate_num`, then the dean and secretary signature blocks
in that order (spacers interleaved), and registers the seal image as a
first-page overlay at `(doc.width - 75, 260)` with size 100×100. -/
theorem generate_certificate_flow_order (g : CertificateGenerator)
    (dean_height secretary_height : ℚ)
    (hdean : calculate_height g.dean_signature_dims.width
      g.dean_signature_dims.height 80 = some dean_height)
    (hsec : calculate_height g.secretary_signature_dims.width
      g.secretary_signature_dims.height 80 = some secretary_height) :
    g.generate_certificate = some
      ⟨[g.add_title, add_spacer 12, g.add_ref_number, add_spacer 12,
          g.add_student_info, add_spacer 12, g.add_issue_date, add_spacer 12,
          .image (.code128 g.certificate_num) 150 30, add_spacer 12,
          add_spacer 12, add_spacer 12,
          add_paragraph (image_paragraph_text "Декан (Директор):"
            g.dean_signature_path 80 dean_height),
          add_spacer 12, add_spacer 12,
          add_paragraph (image_paragraph_text "Секретарь (методист) факультета:"
            g.secretary_signature_path 80 secretary_height)],
        ⟨g.seal_image_path, 100, 100, simple_doc_width - 75, 260⟩⟩ ∧
    (∃ pre suf, g.ref_number_text = pre ++ g.certificate_num ++ suf) ∧
    (∃ pre suf, g.student_info_text =
      pre ++ (toString g.course_num ++ "-курса") ++ suf) := by
  refine ⟨?_, ⟨"<font size=12 color=black>СПРАВКА № ",
    "<br/><br/>Настоящая справка подтверждает то, что</font>", rfl⟩, ?_⟩
  · simp only [CertificateGenerator.generate_certificate,
      CertificateGenerator.add_signatures, add_image_paragraph, hdean, hsec,
      Option.map_some', CertificateGenerator.generate_barcode_image,
      CertificateGenerator.draw_seal]
    rfl
  · refine ⟨"<font size=12 color=black>" ++ g.student_name ++
      "<br/>действительно является студентом (кой) ",
      " группы " ++ g.group_name ++ "<br/>направлении: " ++
        toString g.direction_number ++ ". " ++ g.direction_name ++ " (" ++
        g.study_type ++ ", " ++ g.level ++ ")<br/>" ++ g.faculty_name ++
        "</font>", ?_⟩
    rw [CertificateGenerator.student_info_text,
      (by decide : ("-курса группы " : String) = "-курса" ++ " группы ")]
    simp only [String.append_assoc]

theorem generate_certificate_flow_order_witness :
    (CertificateGenerator.generate_certificate example_generator).isSome = true := by
  have h := generate_certificate_flow_order example_generator 40 40
    (by norm_num [calculate_height, example_generator])
    (by norm_num [calculate_height, example_generator])
  rw [h.1]
  rfl

/-- Every successfully assembled Variant A flow has this fixed kind
sequence, whatever the field values. -/
theorem flow_kinds_A (g : CertificateGenerator) (d : Document)
    (h : g.generate_certificate = some d) :
    d.flow.map Flowable.kind = [.text, .spacer, .text, .spacer, .text, .spacer,
      .text, .spacer, .image, .spacer, .spacer, .spacer, .text, .spacer,
      .spacer, .text] := by
  simp only [CertificateGenerator.generate_certificate,
    CertificateGenerator.add_signatures, add_image_paragraph] at h
  cases h1 : calculate_height g.dean_signature_dims.width
      g.dean_signature_dims.height 80 with
  | none => rw [h1] at h; simp at h
  | some a =>
    cases h2 : calculate_height g.secretary_signature_dims.width
        g.secretary_signature_dims.height 80 with
    | none => rw [h1, h2] at h; simp at h
    | some b =>
      rw [h1, h2] at h
      simp only [Option.map_some'] at h
      cases h
      rfl

/-- Every successfully assembled Variant B flow has this fixed kind
sequence, whatever the field values. -/
theorem flow_kinds_B (g : CertificateGenerator2) (d : Document)
    (h : g.generate_certificate = some d) :
    d.flow.map Flowable.kind = [.text, .spacer, .text, .spacer, .text, .spacer,
      .text, .spacer, .text, .spacer, .text, .spacer, .text, .spacer, .image,
      .spacer, .spacer, .spacer, .text] := by
  simp only [CertificateGenerator2.generate_certificate,
    CertificateGenerator2.add_signatures, add_image_paragraph] at h
  cases h1 : calculate_height g.project_authority_sign_dims.width
      g.project_authority_sign_dims.height 80 with
  | none => rw [h1] at h; simp at h
  | some a =>
    rw [h1] at h
    simp only [Option.map_some'] at h
    cases h
    rfl

/-- Claim C9: flow assembly is a pure function of the field bundle — two
invocations with equal bundles return identical documents, byte for byte —
and the kind sequence of every successfully assembled flow is one fixed
list per variant, independent of the field values (no reordering based on
content). -/
theorem generate_certificate_deterministic :
    (∀ g g' : CertificateGenerator, g = g' →
      g.generate_certificate = g'.generate_certificate) ∧
    (∀ g g' : CertificateGenerator,
      (g.generate_certificate).isSome → (g'.generate_certificate).isSome →
      (g.generate_certificate).map (fun d => d.flow.map Flowable.kind) =
        (g'.generate_certificate).map (fun d => d.flow.map Flowable.kind)) ∧
    (∀ g g' : CertificateGenerator2, g = g' →
      g.generate_certificate = g'.generate_certificate) ∧
    (∀ g g' : CertificateGenerator2,
      (g.generate_certificate).isSome → (g'.generate_certificate).isSome →
      (g.generate_certificate).map (fun d => d.flow.map Flowable.kind) =
        (g'.generate_certificate).map (fun d => d.flow.map Flowable.kind)) := by
  refine ⟨fun g g' h => by rw [h], ?_, fun g g' h => by rw [h], ?_⟩
  · intro g g' h h'
    obtain ⟨d, hd⟩ := Option.isSome_iff_exists.mp h
    obtain ⟨d', hd'⟩ := Option.isSome_iff_exists.mp h'
    rw [hd, hd', Option.map_some', Option.map_some',
      flow_kinds_A g d hd, flow_kinds_A g' d' hd']
  · intro g g' h h'
    obtain ⟨d, hd⟩ := Option.isSome_iff_exists.mp h
    obtain ⟨d', hd'⟩ := Option.isSome_iff_exists.mp h'
    rw [hd, hd', Option.map_some', Option.map_some',
      flow_kinds_B g d hd, flow_kinds_B g' d' hd']

theorem generate_certificate_deterministic_witness :
    (CertificateGenerator.generate_certificate example_generator =
      CertificateGenerator.generate_certificate example_generator) ∧
    ((CertificateGenerator.generate_certificate example_generator).map
        (fun d => d.flow.map Flowable.kind) =
      (CertificateGenerator.generate_certificate example_generator).map
        (fun d => d.flow.map Flowable.kind)) ∧
    (CertificateGenerator2.generate_certificate example_generator2 =
      CertificateGenerator2.generate_certificate example_generator2) ∧
    ((CertificateGenerator2.generate_certificate example_generator2).map
        (fun d => d.flow.map Flowable.kind) =
      (CertificateGenerator2.generate_certificate example_generator2).map
        (fun d => d.flow.map Flowable.kind)) := by
  have e1 : calculate_height 160 80 80 = some 40 := by norm_num [calculate_height]
  have hA : (CertificateGenerator.generate_certificate example_generator).isSome := by
    simp [CertificateGenerator.generate_certificate,
      CertificateGenerator.add_signatures, add_image_paragraph, example_generator, e1]
  have hB : (CertificateGenerator2.generate_certificate example_generator2).isSome := by
    simp [CertificateGenerator2.generate_certificate,
      CertificateGenerator2.add_signatures, add_image_paragraph, example_generator2, e1]
  exact ⟨generate_certificate_deterministic.1 _ _ rfl,
    generate_certificate_deterministic.2.1 _ _ hA hA,
    generate_certificate_deterministic.2.2.1 _ _ rfl,
    generate_certificate_deterministic.2.2.2 _ _ hB hB⟩
